import Mathlib

/-
Verification of src/allens.py (dsbrown/allen_period): a simplified Allen
interval algebra over date intervals.  Dates are shallowly embedded as
integers: Python's datetime.date is a totally ordered type, and every
predicate in the source only compares dates, so any order-embedding of
dates into Int is faithful.  Python functions that can return the int 1,
the int 0 or fall through to None are embedded as functions into
Option Nat (none = Python None); Python truthiness of such a value is
made explicit by pyTruthy.
-/

namespace Allens

/-- Truthiness of a Python int: nonzero is truthy. -/
def pyTruthyNat (n : Nat) : Bool := n != 0

/-- Truthiness of a Python value that is an int or None: None is falsy,
an int is truthy iff nonzero. -/
def pyTruthy : Option Nat → Bool
  | none => false
  | some n => pyTruthyNat n

/-- Embeds valid_dates from src/allens.py: returns 0 if start > stop,
else 1. -/
def valid_dates (start stop : Int) : Nat :=
  if start > stop then 0 else 1

/-- Embeds precedes from src/allens.py.  The outer guard checks both
intervals through valid_dates; when the guard fails the Python function
falls through and returns None. -/
def precedes (begin_start begin_end end_start end_end : Int) : Option Nat :=
  if pyTruthyNat (valid_dates begin_start begin_end)
      && pyTruthyNat (valid_dates end_start end_end) then
    if begin_start < end_start ∧ begin_end < end_start then some 1 else some 0
  else
    none

/-- Embeds preceded_by from src/allens.py: tests the truthiness of
precedes with the arguments swapped and always returns 1 or 0. -/
def preceded_by (begin_start begin_end end_start end_end : Int) : Option Nat :=
  if pyTruthy (precedes end_start end_end begin_start begin_end) then some 1
  else some 0

/-- Embeds meets from src/allens.py. -/
def meets (begin_start begin_end end_start end_end : Int) : Option Nat :=
  if pyTruthyNat (valid_dates begin_start begin_end)
      && pyTruthyNat (valid_dates end_start end_end) then
    if begin_start < end_start ∧ begin_end ≤ end_start then some 1 else some 0
  else
    none

/-- Embeds met_by from src/allens.py. -/
def met_by (begin_start begin_end end_start end_end : Int) : Option Nat :=
  if pyTruthy (meets end_start end_end begin_start begin_end) then some 1
  else some 0

/-- Embeds overlaps from src/allens.py. -/
def overlaps (begin_start begin_end end_start end_end : Int) : Option Nat :=
  if pyTruthyNat (valid_dates begin_start begin_end)
      && pyTruthyNat (valid_dates end_start end_end) then
    if begin_start < end_start ∧ begin_end ≥ end_start then some 1 else some 0
  else
    none

/-- Embeds overlapped_by from src/allens.py. -/
def overlapped_by (begin_start begin_end end_start end_end : Int) : Option Nat :=
  if pyTruthy (overlaps end_start end_end begin_start begin_end) then some 1
  else some 0

/-- Embeds finished_by from src/allens.py. -/
def finished_by (begin_start begin_end end_start end_end : Int) : Option Nat :=
  if pyTruthyNat (valid_dates begin_start begin_end)
      && pyTruthyNat (valid_dates end_start end_end) then
    if begin_start < end_start ∧ begin_end = end_end then some 1 else some 0
  else
    none

/-- Embeds finishes from src/allens.py. -/
def finishes (begin_start begin_end end_start end_end : Int) : Option Nat :=
  if pyTruthy (finished_by end_start end_end begin_start begin_end) then some 1
  else some 0

/-- Embeds contains from src/allens.py.  Note the comparison is
begin_end > end_start, exactly as in the source. -/
def contains (begin_start begin_end end_start end_end : Int) : Option Nat :=
  if pyTruthyNat (valid_dates begin_start begin_end)
      && pyTruthyNat (valid_dates end_start end_end) then
    if begin_start < end_start ∧ begin_end > end_start then some 1 else some 0
  else
    none

/-- Embeds during from src/allens.py. -/
def during (begin_start begin_end end_start end_end : Int) : Option Nat :=
  if pyTruthy (contains end_start end_end begin_start begin_end) then some 1
  else some 0

/-- Embeds starts from src/allens.py. -/
def starts (begin_start begin_end end_start end_end : Int) : Option Nat :=
  if pyTruthyNat (valid_dates begin_start begin_end)
      && pyTruthyNat (valid_dates end_start end_end) then
    if begin_start = end_start ∧ begin_end < end_end then some 1 else some 0
  else
    none

/-- Embeds started_by from src/allens.py. -/
def started_by (begin_start begin_end end_start end_end : Int) : Option Nat :=
  if pyTruthy (starts end_start end_end begin_start begin_end) then some 1
  else some 0

/-- Embeds equals from src/allens.py. -/
def equals (begin_start begin_end end_start end_end : Int) : Option Nat :=
  if pyTruthyNat (valid_dates begin_start begin_end)
      && pyTruthyNat (valid_dates end_start end_end) then
    if begin_start = end_start ∧ begin_end = end_end then some 1 else some 0
  else
    none

/-- Embeds the date constructor: datetime.date compares
lexicographically on (year, month, day), and for calendar dates
(month ≤ 12, day ≤ 31) the key y*10000 + m*100 + d preserves that
order, so this is an order-embedding of dates into Int. -/
def date (y m d : Nat) : Int := (y : Int) * 10000 + (m : Int) * 100 + (d : Int)

/-- Embeds the OVERLAPS demo tuple from src/allens.py line 88. -/
def OVERLAPS : Int × Int × Int × Int :=
  (date 2013 6 1, date 2015 1 1, date 2014 12 1, date 2015 9 5)

/-- The closed enumeration of the thirteen Allen base relations
(spec section 3, Data Model). -/
inductive Relation
  | precedes | preceded_by | meets | met_by | overlaps | overlapped_by
  | finished_by | finishes | contains | during | starts | started_by
  | equals
deriving DecidableEq

/-- The three-way coarse classification of a relation
(spec section 3, Data Model). -/
inductive ConflictCategory
  | EQUAL | COMPATIBLE | CONFLICTING
deriving DecidableEq

/-- Modelled from the spec: the Relation → Conflict Category mapper of
spec section 4.3 is not present in src/allens.py (the source only has
the thirteen predicates and demo printing), so it is modelled from the
spec's words: EQUAL for equals; COMPATIBLE for precedes, preceded_by,
meets, met_by; CONFLICTING for the remaining eight relations. -/
def relation_category : Relation → ConflictCategory
  | .equals => .EQUAL
  | .precedes => .COMPATIBLE
  | .preceded_by => .COMPATIBLE
  | .meets => .COMPATIBLE
  | .met_by => .COMPATIBLE
  | .overlaps => .CONFLICTING
  | .overlapped_by => .CONFLICTING
  | .finished_by => .CONFLICTING
  | .finishes => .CONFLICTING
  | .contains => .CONFLICTING
  | .during => .CONFLICTING
  | .starts => .CONFLICTING
  | .started_by => .CONFLICTING

/-- Truthiness of the 0/1 result of an inner predicate test. -/
theorem pyTruthy_ite (P : Prop) [Decidable P] :
    pyTruthy (if P then some 1 else some 0) = true ↔ P := by
  split_ifs with h <;> simp [pyTruthy, pyTruthyNat, h]

/-- A complement predicate applied to a 0/1 result reproduces it. -/
theorem pyBool_of_ite (P : Prop) [Decidable P] :
    (if pyTruthy (if P then some 1 else some 0) then some 1 else (some 0 : Option Nat))
      = if P then some 1 else some 0 := by
  by_cases h : P <;> simp [h, pyTruthy, pyTruthyNat]

/-- The validity guard shared by the seven direct predicates succeeds
exactly on two valid intervals. -/
theorem guard_true (a1 a2 b1 b2 : Int) (ha : a1 ≤ a2) (hb : b1 ≤ b2) :
    (pyTruthyNat (valid_dates a1 a2) && pyTruthyNat (valid_dates b1 b2)) = true := by
  simp only [valid_dates, pyTruthyNat]
  split_ifs <;> simp_all <;> omega

/-- The validity guard fails when either interval is invalid. -/
theorem guard_false (a1 a2 b1 b2 : Int) (h : ¬(a1 ≤ a2) ∨ ¬(b1 ≤ b2)) :
    (pyTruthyNat (valid_dates a1 a2) && pyTruthyNat (valid_dates b1 b2)) = false := by
  simp only [valid_dates, pyTruthyNat]
  rcases h with h | h <;> split_ifs <;> simp_all

/-- Closed form of precedes on valid intervals. -/
theorem precedes_valid_eq (a1 a2 b1 b2 : Int) (ha : a1 ≤ a2) (hb : b1 ≤ b2) :
    precedes a1 a2 b1 b2 = if a1 < b1 ∧ a2 < b1 then some 1 else some 0 := by
  rw [precedes, if_pos (guard_true a1 a2 b1 b2 ha hb)]

/-- Closed form of meets on valid intervals. -/
theorem meets_valid_eq (a1 a2 b1 b2 : Int) (ha : a1 ≤ a2) (hb : b1 ≤ b2) :
    meets a1 a2 b1 b2 = if a1 < b1 ∧ a2 ≤ b1 then some 1 else some 0 := by
  rw [meets, if_pos (guard_true a1 a2 b1 b2 ha hb)]

/-- Closed form of overlaps on valid intervals. -/
theorem overlaps_valid_eq (a1 a2 b1 b2 : Int) (ha : a1 ≤ a2) (hb : b1 ≤ b2) :
    overlaps a1 a2 b1 b2 = if a1 < b1 ∧ a2 ≥ b1 then some 1 else some 0 := by
  rw [overlaps, if_pos (guard_true a1 a2 b1 b2 ha hb)]

/-- Closed form of finished_by on valid intervals. -/
theorem finished_by_valid_eq (a1 a2 b1 b2 : Int) (ha : a1 ≤ a2) (hb : b1 ≤ b2) :
    finished_by a1 a2 b1 b2 = if a1 < b1 ∧ a2 = b2 then some 1 else some 0 := by
  rw [finished_by, if_pos (guard_true a1 a2 b1 b2 ha hb)]

/-- Closed form of contains on valid intervals. -/
theorem contains_valid_eq (a1 a2 b1 b2 : Int) (ha : a1 ≤ a2) (hb : b1 ≤ b2) :
    contains a1 a2 b1 b2 = if a1 < b1 ∧ a2 > b1 then some 1 else some 0 := by
  rw [contains, if_pos (guard_true a1 a2 b1 b2 ha hb)]

/-- Closed form of starts on valid intervals. -/
theorem starts_valid_eq (a1 a2 b1 b2 : Int) (ha : a1 ≤ a2) (hb : b1 ≤ b2) :
    starts a1 a2 b1 b2 = if a1 = b1 ∧ a2 < b2 then some 1 else some 0 := by
  rw [starts, if_pos (guard_true a1 a2 b1 b2 ha hb)]

/-- Closed form of equals on valid intervals. -/
theorem equals_valid_eq (a1 a2 b1 b2 : Int) (ha : a1 ≤ a2) (hb : b1 ≤ b2) :
    equals a1 a2 b1 b2 = if a1 = b1 ∧ a2 = b2 then some 1 else some 0 := by
  rw [equals, if_pos (guard_true a1 a2 b1 b2 ha hb)]

/-- Closed form of preceded_by on valid intervals. -/
theorem preceded_by_valid_eq (a1 a2 b1 b2 : Int) (ha : a1 ≤ a2) (hb : b1 ≤ b2) :
    preceded_by a1 a2 b1 b2 = if b1 < a1 ∧ b2 < a1 then some 1 else some 0 := by
  rw [preceded_by, precedes_valid_eq b1 b2 a1 a2 hb ha]
  exact pyBool_of_ite _

/-- Closed form of met_by on valid intervals. -/
theorem met_by_valid_eq (a1 a2 b1 b2 : Int) (ha : a1 ≤ a2) (hb : b1 ≤ b2) :
    met_by a1 a2 b1 b2 = if b1 < a1 ∧ b2 ≤ a1 then some 1 else some 0 := by
  rw [met_by, meets_valid_eq b1 b2 a1 a2 hb ha]
  exact pyBool_of_ite _

/-- Closed form of overlapped_by on valid intervals. -/
theorem overlapped_by_valid_eq (a1 a2 b1 b2 : Int) (ha : a1 ≤ a2) (hb : b1 ≤ b2) :
    overlapped_by a1 a2 b1 b2 = if b1 < a1 ∧ b2 ≥ a1 then some 1 else some 0 := by
  rw [overlapped_by, overlaps_valid_eq b1 b2 a1 a2 hb ha]
  exact pyBool_of_ite _

/-- Closed form of finishes on valid intervals. -/
theorem finishes_valid_eq (a1 a2 b1 b2 : Int) (ha : a1 ≤ a2) (hb : b1 ≤ b2) :
    finishes a1 a2 b1 b2 = if b1 < a1 ∧ b2 = a2 then some 1 else some 0 := by
  rw [finishes, finished_by_valid_eq b1 b2 a1 a2 hb ha]
  exact pyBool_of_ite _

/-- Closed form of during on valid intervals. -/
theorem during_valid_eq (a1 a2 b1 b2 : Int) (ha : a1 ≤ a2) (hb : b1 ≤ b2) :
    during a1 a2 b1 b2 = if b1 < a1 ∧ b2 > a1 then some 1 else some 0 := by
  rw [during, contains_valid_eq b1 b2 a1 a2 hb ha]
  exact pyBool_of_ite _

/-- Closed form of started_by on valid intervals. -/
theorem started_by_valid_eq (a1 a2 b1 b2 : Int) (ha : a1 ≤ a2) (hb : b1 ≤ b2) :
    started_by a1 a2 b1 b2 = if b1 = a1 ∧ b2 < a2 then some 1 else some 0 := by
  rw [started_by, starts_valid_eq b1 b2 a1 a2 hb ha]
  exact pyBool_of_ite _

/-- On an invalid interval precedes falls through its guard to None. -/
theorem precedes_invalid (a1 a2 b1 b2 : Int) (h : ¬(a1 ≤ a2) ∨ ¬(b1 ≤ b2)) :
    precedes a1 a2 b1 b2 = none := by
  have hg := guard_false a1 a2 b1 b2 h
  rw [precedes, hg]
  simp

/-- On an invalid interval meets falls through its guard to None. -/
theorem meets_invalid (a1 a2 b1 b2 : Int) (h : ¬(a1 ≤ a2) ∨ ¬(b1 ≤ b2)) :
    meets a1 a2 b1 b2 = none := by
  have hg := guard_false a1 a2 b1 b2 h
  rw [meets, hg]
  simp

/-- On an invalid interval overlaps falls through its guard to None. -/
theorem overlaps_invalid (a1 a2 b1 b2 : Int) (h : ¬(a1 ≤ a2) ∨ ¬(b1 ≤ b2)) :
    overlaps a1 a2 b1 b2 = none := by
  have hg := guard_false a1 a2 b1 b2 h
  rw [overlaps, hg]
  simp

/-- On an invalid interval finished_by falls through its guard to None. -/
theorem finished_by_invalid (a1 a2 b1 b2 : Int) (h : ¬(a1 ≤ a2) ∨ ¬(b1 ≤ b2)) :
    finished_by a1 a2 b1 b2 = none := by
  have hg := guard_false a1 a2 b1 b2 h
  rw [finished_by, hg]
  simp

/-- On an invalid interval contains falls through its guard to None. -/
theorem contains_invalid (a1 a2 b1 b2 : Int) (h : ¬(a1 ≤ a2) ∨ ¬(b1 ≤ b2)) :
    contains a1 a2 b1 b2 = none := by
  have hg := guard_false a1 a2 b1 b2 h
  rw [contains, hg]
  simp

/-- On an invalid interval starts falls through its guard to None. -/
theorem starts_invalid (a1 a2 b1 b2 : Int) (h : ¬(a1 ≤ a2) ∨ ¬(b1 ≤ b2)) :
    starts a1 a2 b1 b2 = none := by
  have hg := guard_false a1 a2 b1 b2 h
  rw [starts, hg]
  simp

/-- On an invalid interval equals falls through its guard to None. -/
theorem equals_invalid (a1 a2 b1 b2 : Int) (h : ¬(a1 ≤ a2) ∨ ¬(b1 ≤ b2)) :
    equals a1 a2 b1 b2 = none := by
  have hg := guard_false a1 a2 b1 b2 h
  rw [equals, hg]
  simp

/-- On an invalid interval preceded_by sees a falsy None and returns 0. -/
theorem preceded_by_invalid (a1 a2 b1 b2 : Int) (h : ¬(a1 ≤ a2) ∨ ¬(b1 ≤ b2)) :
    preceded_by a1 a2 b1 b2 = some 0 := by
  rw [preceded_by, precedes_invalid b1 b2 a1 a2 (Or.symm h)]
  simp [pyTruthy]

/-- On an invalid interval met_by sees a falsy None and returns 0. -/
theorem met_by_invalid (a1 a2 b1 b2 : Int) (h : ¬(a1 ≤ a2) ∨ ¬(b1 ≤ b2)) :
    met_by a1 a2 b1 b2 = some 0 := by
  rw [met_by, meets_invalid b1 b2 a1 a2 (Or.symm h)]
  simp [pyTruthy]

/-- On an invalid interval overlapped_by sees a falsy None and returns 0. -/
theorem overlapped_by_invalid (a1 a2 b1 b2 : Int) (h : ¬(a1 ≤ a2) ∨ ¬(b1 ≤ b2)) :
    overlapped_by a1 a2 b1 b2 = some 0 := by
  rw [overlapped_by, overlaps_invalid b1 b2 a1 a2 (Or.symm h)]
  simp [pyTruthy]

/-- On an invalid interval finishes sees a falsy None and returns 0. -/
theorem finishes_invalid (a1 a2 b1 b2 : Int) (h : ¬(a1 ≤ a2) ∨ ¬(b1 ≤ b2)) :
    finishes a1 a2 b1 b2 = some 0 := by
  rw [finishes, finished_by_invalid b1 b2 a1 a2 (Or.symm h)]
  simp [pyTruthy]

/-- On an invalid interval during sees a falsy None and returns 0. -/
theorem during_invalid (a1 a2 b1 b2 : Int) (h : ¬(a1 ≤ a2) ∨ ¬(b1 ≤ b2)) :
    during a1 a2 b1 b2 = some 0 := by
  rw [during, contains_invalid b1 b2 a1 a2 (Or.symm h)]
  simp [pyTruthy]

/-- On an invalid interval started_by sees a falsy None and returns 0. -/
theorem started_by_invalid (a1 a2 b1 b2 : Int) (h : ¬(a1 ≤ a2) ∨ ¬(b1 ≤ b2)) :
    started_by a1 a2 b1 b2 = some 0 := by
  rw [started_by, starts_invalid b1 b2 a1 a2 (Or.symm h)]
  simp [pyTruthy]

/-- C1: the mutual-exclusivity claim fails on the code as written: for
the valid intervals A = (0, 1) and B = (2, 3) both the precedes
predicate and the meets predicate return a truthy value, so more than
one of the thirteen base predicates holds on this pair of valid
intervals. -/
theorem C1_mutual_exclusivity_fails_on_code :
    (0 : Int) ≤ 1 ∧ (2 : Int) ≤ 3 ∧
    pyTruthy (precedes 0 1 2 3) = true ∧ pyTruthy (meets 0 1 2 3) = true := by
  decide

/-- C2: exhaustiveness: for every pair of valid intervals at least one
of the thirteen base relation predicates returns a truthy value. -/
theorem C2_exhaustiveness (a1 a2 b1 b2 : Int) (ha : a1 ≤ a2) (hb : b1 ≤ b2) :
    pyTruthy (precedes a1 a2 b1 b2) = true ∨
    pyTruthy (preceded_by a1 a2 b1 b2) = true ∨
    pyTruthy (meets a1 a2 b1 b2) = true ∨
    pyTruthy (met_by a1 a2 b1 b2) = true ∨
    pyTruthy (overlaps a1 a2 b1 b2) = true ∨
    pyTruthy (overlapped_by a1 a2 b1 b2) = true ∨
    pyTruthy (finished_by a1 a2 b1 b2) = true ∨
    pyTruthy (finishes a1 a2 b1 b2) = true ∨
    pyTruthy (contains a1 a2 b1 b2) = true ∨
    pyTruthy (during a1 a2 b1 b2) = true ∨
    pyTruthy (starts a1 a2 b1 b2) = true ∨
    pyTruthy (started_by a1 a2 b1 b2) = true ∨
    pyTruthy (equals a1 a2 b1 b2) = true := by
  rw [precedes_valid_eq a1 a2 b1 b2 ha hb, preceded_by_valid_eq a1 a2 b1 b2 ha hb,
    meets_valid_eq a1 a2 b1 b2 ha hb, met_by_valid_eq a1 a2 b1 b2 ha hb,
    overlaps_valid_eq a1 a2 b1 b2 ha hb, overlapped_by_valid_eq a1 a2 b1 b2 ha hb,
    finished_by_valid_eq a1 a2 b1 b2 ha hb, finishes_valid_eq a1 a2 b1 b2 ha hb,
    contains_valid_eq a1 a2 b1 b2 ha hb, during_valid_eq a1 a2 b1 b2 ha hb,
    starts_valid_eq a1 a2 b1 b2 ha hb, started_by_valid_eq a1 a2 b1 b2 ha hb,
    equals_valid_eq a1 a2 b1 b2 ha hb]
  simp only [pyTruthy_ite]
  omega

/-- Witness for C2 at A = (0, 1), B = (2, 3). -/
theorem C2_exhaustiveness_witness :
    pyTruthy (precedes 0 1 2 3) = true ∨
    pyTruthy (preceded_by 0 1 2 3) = true ∨
    pyTruthy (meets 0 1 2 3) = true ∨
    pyTruthy (met_by 0 1 2 3) = true ∨
    pyTruthy (overlaps 0 1 2 3) = true ∨
    pyTruthy (overlapped_by 0 1 2 3) = true ∨
    pyTruthy (finished_by 0 1 2 3) = true ∨
    pyTruthy (finishes 0 1 2 3) = true ∨
    pyTruthy (contains 0 1 2 3) = true ∨
    pyTruthy (during 0 1 2 3) = true ∨
    pyTruthy (starts 0 1 2 3) = true ∨
    pyTruthy (started_by 0 1 2 3) = true ∨
    pyTruthy (equals 0 1 2 3) = true :=
  C2_exhaustiveness 0 1 2 3 (by decide) (by decide)

/-- C3: when either interval is invalid every one of the thirteen
predicates completes (they are total functions in this embedding, as in
the source, which raises no exception) and returns a falsy value. -/
theorem C3_invalid_input_falsy (a1 a2 b1 b2 : Int) (h : ¬(a1 ≤ a2) ∨ ¬(b1 ≤ b2)) :
    pyTruthy (precedes a1 a2 b1 b2) = false ∧
    pyTruthy (preceded_by a1 a2 b1 b2) = false ∧
    pyTruthy (meets a1 a2 b1 b2) = false ∧
    pyTruthy (met_by a1 a2 b1 b2) = false ∧
    pyTruthy (overlaps a1 a2 b1 b2) = false ∧
    pyTruthy (overlapped_by a1 a2 b1 b2) = false ∧
    pyTruthy (finished_by a1 a2 b1 b2) = false ∧
    pyTruthy (finishes a1 a2 b1 b2) = false ∧
    pyTruthy (contains a1 a2 b1 b2) = false ∧
    pyTruthy (during a1 a2 b1 b2) = false ∧
    pyTruthy (starts a1 a2 b1 b2) = false ∧
    pyTruthy (started_by a1 a2 b1 b2) = false ∧
    pyTruthy (equals a1 a2 b1 b2) = false := by
  rw [precedes_invalid a1 a2 b1 b2 h, preceded_by_invalid a1 a2 b1 b2 h,
    meets_invalid a1 a2 b1 b2 h, met_by_invalid a1 a2 b1 b2 h,
    overlaps_invalid a1 a2 b1 b2 h, overlapped_by_invalid a1 a2 b1 b2 h,
    finished_by_invalid a1 a2 b1 b2 h, finishes_invalid a1 a2 b1 b2 h,
    contains_invalid a1 a2 b1 b2 h, during_invalid a1 a2 b1 b2 h,
    starts_invalid a1 a2 b1 b2 h, started_by_invalid a1 a2 b1 b2 h,
    equals_invalid a1 a2 b1 b2 h]
  decide

/-- Witness for C3 at the invalid A = (1, 0) and valid B = (0, 1). -/
theorem C3_invalid_input_falsy_witness :
    pyTruthy (precedes 1 0 0 1) = false ∧
    pyTruthy (preceded_by 1 0 0 1) = false ∧
    pyTruthy (meets 1 0 0 1) = false ∧
    pyTruthy (met_by 1 0 0 1) = false ∧
    pyTruthy (overlaps 1 0 0 1) = false ∧
    pyTruthy (overlapped_by 1 0 0 1) = false ∧
    pyTruthy (finished_by 1 0 0 1) = false ∧
    pyTruthy (finishes 1 0 0 1) = false ∧
    pyTruthy (contains 1 0 0 1) = false ∧
    pyTruthy (during 1 0 0 1) = false ∧
    pyTruthy (starts 1 0 0 1) = false ∧
    pyTruthy (started_by 1 0 0 1) = false ∧
    pyTruthy (equals 1 0 0 1) = false :=
  C3_invalid_input_falsy 1 0 0 1 (Or.inl (by decide))

/-- C4: complement symmetry: on valid intervals each complement
predicate with swapped arguments returns the same value as its base
predicate, and equals is symmetric. -/
theorem C4_complement_symmetry (a1 a2 b1 b2 : Int) (ha : a1 ≤ a2) (hb : b1 ≤ b2) :
    precedes a1 a2 b1 b2 = preceded_by b1 b2 a1 a2 ∧
    meets a1 a2 b1 b2 = met_by b1 b2 a1 a2 ∧
    overlaps a1 a2 b1 b2 = overlapped_by b1 b2 a1 a2 ∧
    finished_by a1 a2 b1 b2 = finishes b1 b2 a1 a2 ∧
    contains a1 a2 b1 b2 = during b1 b2 a1 a2 ∧
    starts a1 a2 b1 b2 = started_by b1 b2 a1 a2 ∧
    equals a1 a2 b1 b2 = equals b1 b2 a1 a2 := by
  rw [precedes_valid_eq a1 a2 b1 b2 ha hb, preceded_by_valid_eq b1 b2 a1 a2 hb ha,
    meets_valid_eq a1 a2 b1 b2 ha hb, met_by_valid_eq b1 b2 a1 a2 hb ha,
    overlaps_valid_eq a1 a2 b1 b2 ha hb, overlapped_by_valid_eq b1 b2 a1 a2 hb ha,
    finished_by_valid_eq a1 a2 b1 b2 ha hb, finishes_valid_eq b1 b2 a1 a2 hb ha,
    contains_valid_eq a1 a2 b1 b2 ha hb, during_valid_eq b1 b2 a1 a2 hb ha,
    starts_valid_eq a1 a2 b1 b2 ha hb, started_by_valid_eq b1 b2 a1 a2 hb ha,
    equals_valid_eq a1 a2 b1 b2 ha hb, equals_valid_eq b1 b2 a1 a2 hb ha]
  refine ⟨rfl, rfl, rfl, rfl, rfl, rfl, ?_⟩
  have hc : (a1 = b1 ∧ a2 = b2) ↔ (b1 = a1 ∧ b2 = a2) := by
    constructor <;> rintro ⟨rfl, rfl⟩ <;> exact ⟨rfl, rfl⟩
  exact if_congr hc rfl rfl

/-- Witness for C4 at A = (0, 2), B = (1, 3). -/
theorem C4_complement_symmetry_witness :
    precedes 0 2 1 3 = preceded_by 1 3 0 2 ∧
    meets 0 2 1 3 = met_by 1 3 0 2 ∧
    overlaps 0 2 1 3 = overlapped_by 1 3 0 2 ∧
    finished_by 0 2 1 3 = finishes 1 3 0 2 ∧
    contains 0 2 1 3 = during 1 3 0 2 ∧
    starts 0 2 1 3 = started_by 1 3 0 2 ∧
    equals 0 2 1 3 = equals 1 3 0 2 :=
  C4_complement_symmetry 0 2 1 3 (by decide) (by decide)

/-- C5: boundary policy of meets: for valid intervals A = (a1, a2) and
B = (b1, b2), meets returns a truthy value exactly when a1 < b1 and
a2 ≤ b1 (non-strict comparison on the touching endpoint). -/
theorem C5_meets_boundary (a1 a2 b1 b2 : Int) (ha : a1 ≤ a2) (hb : b1 ≤ b2) :
    pyTruthy (meets a1 a2 b1 b2) = true ↔ a1 < b1 ∧ a2 ≤ b1 := by
  rw [meets_valid_eq a1 a2 b1 b2 ha hb]
  exact pyTruthy_ite _

/-- Witness for C5 at the touching pair A = (0, 1), B = (1, 2). -/
theorem C5_meets_boundary_witness :
    pyTruthy (meets 0 1 1 2) = true ↔ (0 : Int) < 1 ∧ (1 : Int) ≤ 1 :=
  C5_meets_boundary 0 1 1 2 (by decide) (by decide)

/-- C6: the relation-to-category mapper (modelled from the spec, as the
source has no mapper) returns EQUAL exactly on equals, COMPATIBLE
exactly on the four precedence and meeting relations, and CONFLICTING
exactly on the remaining eight relations. -/
theorem C6_relation_category_mapping (r : Relation) :
    (relation_category r = ConflictCategory.EQUAL ↔ r = Relation.equals) ∧
    (relation_category r = ConflictCategory.COMPATIBLE ↔
      (r = Relation.precedes ∨ r = Relation.preceded_by ∨
       r = Relation.meets ∨ r = Relation.met_by)) ∧
    (relation_category r = ConflictCategory.CONFLICTING ↔
      (r = Relation.overlaps ∨ r = Relation.overlapped_by ∨
       r = Relation.finished_by ∨ r = Relation.finishes ∨
       r = Relation.contains ∨ r = Relation.during ∨
       r = Relation.starts ∨ r = Relation.started_by)) := by
  cases r <;> decide

/-- C7: reflexivity of equals: for every valid interval A, equals(A, A)
returns a truthy value. -/
theorem C7_equals_reflexive (a1 a2 : Int) (ha : a1 ≤ a2) :
    pyTruthy (equals a1 a2 a1 a2) = true := by
  rw [equals_valid_eq a1 a2 a1 a2 ha ha, pyTruthy_ite]
  exact ⟨rfl, rfl⟩

/-- Witness for C7 at A = (0, 1). -/
theorem C7_equals_reflexive_witness : pyTruthy (equals 0 1 0 1) = true :=
  C7_equals_reflexive 0 1 (by decide)

/-- C8: on the OVERLAPS demo data A = (2013-06-01, 2015-01-01),
B = (2014-12-01, 2015-09-05), the overlaps predicate returns a truthy
value, and the (spec-modelled) mapper sends overlaps to CONFLICTING. -/
theorem C8_overlaps_scenario :
    pyTruthy (overlaps OVERLAPS.1 OVERLAPS.2.1 OVERLAPS.2.2.1 OVERLAPS.2.2.2) = true ∧
    relation_category Relation.overlaps = ConflictCategory.CONFLICTING := by
  decide

/-- C9: on this code precedes implies meets: whenever the precedes
predicate returns a truthy value on a pair, the meets predicate does
too, since a2 < b1 implies a2 ≤ b1 under the same guard, so the two
predicates are not disjoint on any input satisfying precedes. -/
theorem C9_precedes_implies_meets (a1 a2 b1 b2 : Int)
    (h : pyTruthy (precedes a1 a2 b1 b2) = true) :
    pyTruthy (meets a1 a2 b1 b2) = true := by
  by_cases ha : a1 ≤ a2
  · by_cases hb : b1 ≤ b2
    · rw [precedes_valid_eq a1 a2 b1 b2 ha hb, pyTruthy_ite] at h
      rw [meets_valid_eq a1 a2 b1 b2 ha hb, pyTruthy_ite]
      exact ⟨h.1, le_of_lt h.2⟩
    · rw [precedes_invalid a1 a2 b1 b2 (Or.inr hb)] at h
      simp [pyTruthy] at h
  · rw [precedes_invalid a1 a2 b1 b2 (Or.inl ha)] at h
    simp [pyTruthy] at h

/-- Witness for C9 at A = (0, 1), B = (2, 3). -/
theorem C9_precedes_implies_meets_witness : pyTruthy (meets 0 1 2 3) = true :=
  C9_precedes_implies_meets 0 1 2 3 (by decide)

/-- C10: when either interval is invalid, the seven directly-validating
predicates return None while the six complement predicates return 0, so
the two groups disagree on the concrete returned value. -/
theorem C10_invalid_return_values (a1 a2 b1 b2 : Int)
    (h : ¬(a1 ≤ a2) ∨ ¬(b1 ≤ b2)) :
    precedes a1 a2 b1 b2 = none ∧
    meets a1 a2 b1 b2 = none ∧
    overlaps a1 a2 b1 b2 = none ∧
    finished_by a1 a2 b1 b2 = none ∧
    contains a1 a2 b1 b2 = none ∧
    starts a1 a2 b1 b2 = none ∧
    equals a1 a2 b1 b2 = none ∧
    preceded_by a1 a2 b1 b2 = some 0 ∧
    met_by a1 a2 b1 b2 = some 0 ∧
    overlapped_by a1 a2 b1 b2 = some 0 ∧
    finishes a1 a2 b1 b2 = some 0 ∧
    during a1 a2 b1 b2 = some 0 ∧
    started_by a1 a2 b1 b2 = some 0 :=
  ⟨precedes_invalid a1 a2 b1 b2 h, meets_invalid a1 a2 b1 b2 h,
   overlaps_invalid a1 a2 b1 b2 h, finished_by_invalid a1 a2 b1 b2 h,
   contains_invalid a1 a2 b1 b2 h, starts_invalid a1 a2 b1 b2 h,
   equals_invalid a1 a2 b1 b2 h, preceded_by_invalid a1 a2 b1 b2 h,
   met_by_invalid a1 a2 b1 b2 h, overlapped_by_invalid a1 a2 b1 b2 h,
   finishes_invalid a1 a2 b1 b2 h, during_invalid a1 a2 b1 b2 h,
   started_by_invalid a1 a2 b1 b2 h⟩

/-- Witness for C10 at the invalid A = (2, 0) and valid B = (0, 1). -/
theorem C10_invalid_return_values_witness :
    precedes 2 0 0 1 = none ∧
    meets 2 0 0 1 = none ∧
    overlaps 2 0 0 1 = none ∧
    finished_by 2 0 0 1 = none ∧
    contains 2 0 0 1 = none ∧
    starts 2 0 0 1 = none ∧
    equals 2 0 0 1 = none ∧
    preceded_by 2 0 0 1 = some 0 ∧
    met_by 2 0 0 1 = some 0 ∧
    overlapped_by 2 0 0 1 = some 0 ∧
    finishes 2 0 0 1 = some 0 ∧
    during 2 0 0 1 = some 0 ∧
    started_by 2 0 0 1 = some 0 :=
  C10_invalid_return_values 2 0 0 1 (Or.inl (by decide))

end Allens
